import Mathlib

/-!
Verification of the robustness-validation engine of the Python4Finance repository.

The development shallowly embeds the relevant code of
`python_implementation/validation_framework.py` (class `PortfolioValidator` and
`generate_validation_report`) and `python_implementation/module_6_backtest_engine.py`
(class `BacktestEngine`) into Lean.

Modelling conventions:
* Python `datetime` values are days since an arbitrary epoch, i.e. integers; a
  `timedelta(days = n)` is integer addition.  `datetime.now()` is an explicit
  parameter `now`.
* Python floats are embedded as `ℚ` wherever the code only performs field
  operations, and as `ℝ` where the code takes square roots or non-integer
  powers.  A float `NaN` (as produced by pandas reductions over empty series,
  `0.0 / 0.0`, etc.) is modelled by `Option`: `none` is NaN and every arithmetic
  operation with a NaN operand yields NaN, exactly as IEEE floats behave in the
  code paths modelled here.
* Python dicts are association lists in insertion order; pandas Series are
  lists of (date, value) pairs with unique dates.
-/

set_option maxRecDepth 10000

/-! ### Walk-forward analysis, `validation_framework.py` lines 99-159

`walk_forward_analysis` loops: `train_end = train_start + train_period_days`,
`test_end = train_end + test_period_days`, breaks once `test_end > end_date`,
backtests over `[train_end, test_end]` (so the tested interval starts at
`train_end`), then advances `train_start` by `step_size_days`.  A `WFWindow`
records the four datetimes of one loop iteration: the train interval and the
interval actually passed to `_run_backtest`. -/

structure WFWindow where
  train_start : ℤ
  train_end : ℤ
  test_start : ℤ
  test_end : ℤ
deriving DecidableEq

/-- The window emitted by one iteration of the loop body with
`current_train_start = ts` (lines 128-129 and 146-151 of the source:
`_run_backtest` is invoked with `start_date = current_train_end`,
`end_date = current_test_end`). -/
def wfWindowAt (train_period_days test_period_days : ℕ) (ts : ℤ) : WFWindow :=
  { train_start := ts
    train_end := ts + train_period_days
    test_start := ts + train_period_days
    test_end := ts + train_period_days + test_period_days }

/-- The `while True` loop of `walk_forward_analysis`.  The loop only terminates
when `step_size_days > 0` (for step 0 the Python loop never terminates once the
guard holds); that positivity is part of the recursion guard here, and every
theorem about the loop assumes it. -/
def wfLoop (train_period_days test_period_days step_size_days : ℕ) (end_date ts : ℤ) :
    List WFWindow :=
  if h : ts + train_period_days + test_period_days ≤ end_date ∧ 0 < step_size_days then
    wfWindowAt train_period_days test_period_days ts ::
      wfLoop train_period_days test_period_days step_size_days end_date (ts + step_size_days)
  else []
termination_by (end_date + 1 - ts).toNat
decreasing_by
  obtain ⟨h1, h2⟩ := h
  have ht : (0:ℤ) ≤ (train_period_days : ℤ) + (test_period_days : ℤ) := by positivity
  omega

/-- `walk_forward_analysis(train_period_days, test_period_days, step_size_days,
total_history_days)` with `end_date = now` and
`start_date = now - total_history_days` (lines 120-124). -/
def walk_forward_analysis (train_period_days test_period_days step_size_days
    total_history_days : ℕ) (now : ℤ) : List WFWindow :=
  wfLoop train_period_days test_period_days step_size_days now (now - total_history_days)

/-- Closed-form iteration count of the loop started at `ts`. -/
def wfWindowCount (train_period_days test_period_days step_size_days : ℕ)
    (end_date ts : ℤ) : ℕ :=
  if ts + train_period_days + test_period_days ≤ end_date then
    ((end_date - train_period_days - test_period_days - ts) / step_size_days).toNat + 1
  else 0

theorem wfWindowCount_step (trainD testD stepD : ℕ) (hstep : 0 < stepD) (endD ts : ℤ)
    (hg : ts + trainD + testD ≤ endD) :
    wfWindowCount trainD testD stepD endD ts
      = wfWindowCount trainD testD stepD endD (ts + stepD) + 1 := by
  have hstepZ : (0:ℤ) < (stepD : ℤ) := by exact_mod_cast hstep
  have ha : (0:ℤ) ≤ endD - trainD - testD - ts := by omega
  unfold wfWindowCount
  rw [if_pos hg]
  by_cases hg2 : ts + (stepD : ℤ) + trainD + testD ≤ endD
  · rw [if_pos hg2]
    have hdiv : (endD - trainD - testD - (ts + stepD)) / stepD
        = (endD - trainD - testD - ts) / stepD - 1 := by
      have : endD - trainD - testD - (ts + stepD)
          = (endD - trainD - testD - ts) + (-1) * stepD := by ring
      rw [this, Int.add_mul_ediv_right _ _ (ne_of_gt hstepZ)]
      ring
    have hone : 1 ≤ (endD - trainD - testD - ts) / stepD := by
      rw [Int.le_ediv_iff_mul_le hstepZ]
      omega
    rw [hdiv]
    omega
  · rw [if_neg hg2]
    have hlt : endD - trainD - testD - ts < stepD := by omega
    have : (endD - trainD - testD - ts) / stepD = 0 := Int.ediv_eq_zero_of_lt ha hlt
    omega

theorem wfLoop_closed_form (trainD testD stepD : ℕ) (hstep : 0 < stepD) (endD : ℤ) :
    ∀ (n : ℕ) (ts : ℤ), (endD + 1 - ts).toNat ≤ n →
      wfLoop trainD testD stepD endD ts
        = (List.range (wfWindowCount trainD testD stepD endD ts)).map
            (fun k : ℕ => wfWindowAt trainD testD (ts + (k : ℤ) * stepD)) := by
  intro n
  induction n with
  | zero =>
    intro ts hts
    have ht : (0:ℤ) ≤ (trainD : ℤ) + (testD : ℤ) := by positivity
    have hg : ¬ (ts + trainD + testD ≤ endD) := by omega
    rw [wfLoop, dif_neg (fun hc => hg hc.1)]
    unfold wfWindowCount
    rw [if_neg hg]
    simp
  | succ n ih =>
    intro ts hts
    by_cases hg : ts + (trainD : ℤ) + testD ≤ endD
    · rw [wfLoop, dif_pos ⟨hg, hstep⟩]
      have hmeas : (endD + 1 - (ts + stepD)).toNat ≤ n := by omega
      rw [ih (ts + stepD) hmeas]
      rw [wfWindowCount_step trainD testD stepD hstep endD ts hg]
      rw [List.range_succ_eq_map]
      rw [List.map_cons, List.map_map]
      congr 1
      · congr 1
        push_cast
        ring
      · apply List.map_congr_left
        intro k _
        simp only [Function.comp_apply]
        congr 1
        push_cast
        ring
    · rw [wfLoop, dif_neg (fun hc => hg hc.1)]
      unfold wfWindowCount
      rw [if_neg hg]
      simp

theorem walk_forward_closed_form (trainD testD stepD totalH : ℕ) (hstep : 0 < stepD)
    (now : ℤ) :
    walk_forward_analysis trainD testD stepD totalH now
      = (List.range (wfWindowCount trainD testD stepD now (now - totalH))).map
          (fun k : ℕ => wfWindowAt trainD testD (now - totalH + (k : ℤ) * stepD)) :=
  wfLoop_closed_form trainD testD stepD hstep now (now + 1 - (now - totalH)).toNat
    (now - totalH) le_rfl

/-- C1: every walk-forward window's backtested (test) interval starts exactly at its
train interval's end, and consecutive windows' train starts differ by exactly
`step_size_days`. -/
theorem C1_walk_forward_train_test_adjacent (trainD testD stepD totalH : ℕ) (now : ℤ)
    (hstep : 0 < stepD) :
    (∀ w ∈ walk_forward_analysis trainD testD stepD totalH now,
        w.test_start = w.train_end) ∧
    (∀ i (hi : i + 1 < (walk_forward_analysis trainD testD stepD totalH now).length),
        ((walk_forward_analysis trainD testD stepD totalH now).get ⟨i + 1, hi⟩).train_start
          = ((walk_forward_analysis trainD testD stepD totalH now).get
              ⟨i, Nat.lt_of_succ_lt hi⟩).train_start + stepD) := by
  rw [walk_forward_closed_form trainD testD stepD totalH hstep now]
  constructor
  · intro w hw
    rw [List.mem_map] at hw
    obtain ⟨k, _, rfl⟩ := hw
    rfl
  · intro i hi
    simp only [List.get_eq_getElem, List.getElem_map, List.getElem_range, wfWindowAt]
    push_cast
    ring

/-- C1 witness: the guarantee instantiated at the documented defaults
(train 365, test 90, step 90, history 730, now = 2000). -/
theorem C1_walk_forward_train_test_adjacent_witness :
    0 < 90 ∧
    ((∀ w ∈ walk_forward_analysis 365 90 90 730 2000, w.test_start = w.train_end) ∧
     (∀ i (hi : i + 1 < (walk_forward_analysis 365 90 90 730 2000).length),
        ((walk_forward_analysis 365 90 90 730 2000).get ⟨i + 1, hi⟩).train_start
          = ((walk_forward_analysis 365 90 90 730 2000).get
              ⟨i, Nat.lt_of_succ_lt hi⟩).train_start + 90)) :=
  ⟨by decide, C1_walk_forward_train_test_adjacent 365 90 90 730 2000 (by decide)⟩

/-- C2: with positive train/test/step sizes the walk-forward loop produces exactly
`floor((total_history_days - train - test) / step) + 1` windows when
`train + test ≤ total_history_days`, and none otherwise; moreover every emitted
window satisfies `test_end ≤ now` (no partial final window). -/
theorem C2_walk_forward_window_count (trainD testD stepD totalH : ℕ) (now : ℤ)
    (htrain : 0 < trainD) (htest : 0 < testD) (hstep : 0 < stepD) :
    (trainD + testD ≤ totalH →
      (walk_forward_analysis trainD testD stepD totalH now).length
        = (((totalH : ℤ) - trainD - testD) / stepD).toNat + 1) ∧
    (totalH < trainD + testD →
      walk_forward_analysis trainD testD stepD totalH now = []) ∧
    (∀ w ∈ walk_forward_analysis trainD testD stepD totalH now, w.test_end ≤ now) := by
  have hstepZ : (0:ℤ) < (stepD : ℤ) := by exact_mod_cast hstep
  rw [walk_forward_closed_form trainD testD stepD totalH hstep now]
  refine ⟨?_, ?_, ?_⟩
  · intro hle
    have hg : now - totalH + (trainD : ℤ) + testD ≤ now := by
      push_cast
      omega
    simp only [List.length_map, List.length_range, wfWindowCount, if_pos hg]
    have harg : now - (trainD : ℤ) - testD - (now - totalH)
        = (totalH : ℤ) - trainD - testD := by ring
    rw [harg]
  · intro hlt
    have hg : ¬ (now - totalH + (trainD : ℤ) + testD ≤ now) := by
      push_cast
      omega
    simp [wfWindowCount, if_neg hg]
  · intro w hw
    rw [List.mem_map] at hw
    obtain ⟨k, hk, rfl⟩ := hw
    rw [List.mem_range] at hk
    simp only [wfWindowAt]
    unfold wfWindowCount at hk
    by_cases hg : now - totalH + (trainD : ℤ) + testD ≤ now
    · rw [if_pos hg] at hk
      have ha : (0:ℤ) ≤ now - trainD - testD - (now - totalH) := by omega
      have hkle : (k : ℤ) ≤ (now - trainD - testD - (now - totalH)) / stepD := by
        have := Int.toNat_of_nonneg (Int.ediv_nonneg ha (le_of_lt hstepZ))
        omega
      have hmul : (k : ℤ) * stepD ≤ now - trainD - testD - (now - totalH) :=
        (Int.le_ediv_iff_mul_le hstepZ).mp hkle
      omega
    · rw [if_neg hg] at hk
      omega

/-- C2 witness: the spec's own example, `total_history_days = 730`,
`train = 365`, `test = 90`, `step = 90`, giving `floor(275/90) + 1 = 4` windows. -/
theorem C2_walk_forward_window_count_witness :
    0 < 365 ∧ 0 < 90 ∧ 0 < (90:ℕ) ∧
    ((365 + 90 ≤ 730 →
      (walk_forward_analysis 365 90 90 730 2000).length
        = (((730 : ℤ) - 365 - 90) / 90).toNat + 1) ∧
     (730 < 365 + 90 → walk_forward_analysis 365 90 90 730 2000 = []) ∧
     (∀ w ∈ walk_forward_analysis 365 90 90 730 2000, w.test_end ≤ 2000)) :=
  ⟨by decide, by decide, by decide,
    C2_walk_forward_window_count 365 90 90 730 2000 (by decide) (by decide) (by decide)⟩

/-! ### Report aggregation, `validation_framework.py` lines 330-404

`generate_validation_report` reads only the `sharpe_ratio` field of each
`BacktestResult` and the `positive_sharpe_pct` entry of the Monte Carlo summary
dict.  The `BacktestResult` dataclass (lines 16-29) is embedded with all its
fields; its `sharpe_ratio` field is named `sharpe` here (and `MCSummary` keeps
only the one dict key the aggregator reads).  Percentages in the generated
warning strings are not rendered (the claims never inspect warning text). -/

structure BacktestResult where
  period : String
  start_date : ℤ
  end_date : ℤ
  total_return : ℚ
  sharpe : ℚ
  max_drawdown : ℚ
  win_rate : ℚ
  num_trades : ℕ
  stocks_selected : List String
  annual_return : ℚ
  volatility : ℚ
deriving DecidableEq

structure MCSummary where
  positive_sharpe_pct : ℚ
deriving DecidableEq

structure ValidationReport where
  multi_timeframe_results : List (String × BacktestResult)
  walk_forward_results : List BacktestResult
  monte_carlo_results : MCSummary
  robustness_score : ℚ
  recommendation : String
  warnings : List String
deriving DecidableEq

/-- `np.mean` of a list (`sum / len`; the aggregator only applies it to
nonempty lists — on an empty list numpy would yield NaN). -/
def meanQ (l : List ℚ) : ℚ := l.sum / l.length

/-- The repeated idiom `len([s for s in sharpes if s > 0]) / len(sharpes) * 100`
(lines 347, 357). -/
def pctPositive (l : List ℚ) : ℚ :=
  ((l.countP (fun s => decide (0 < s)) : ℕ) : ℚ) / l.length * 100

def generate_validation_report (multi_timeframe_results : List (String × BacktestResult))
    (walk_forward_results : List BacktestResult) (monte_carlo_results : MCSummary) :
    ValidationReport :=
  let mt_sharpes := multi_timeframe_results.map (fun p => p.2.sharpe)
  let mt_positive_pct := pctPositive mt_sharpes
  let mt_score := mt_positive_pct * (1/2)
  let wf_sharpes := walk_forward_results.map (fun r => r.sharpe)
  let wf_positive_pct := pctPositive wf_sharpes
  let wf_score := wf_positive_pct * (1/2)
  let mc_score := monte_carlo_results.positive_sharpe_pct * (1/2)
  let avg_sharpe := meanQ (mt_sharpes ++ wf_sharpes)
  let sharpe_score := min (avg_sharpe * 50) 50
  let robustness_score :=
    mt_score * (25/100) + wf_score * (35/100) + mc_score * (25/100)
      + sharpe_score * (15/100)
  let recommendation :=
    if 70 ≤ robustness_score then "STRONG - Strategy is robust and ready for live trading"
    else if 50 ≤ robustness_score then "MODERATE - Strategy shows promise but needs refinement"
    else if 30 ≤ robustness_score then "WEAK - Strategy needs significant improvement"
    else "FAIL - Strategy is not viable, reconsider approach"
  let warnings :=
    (if mt_positive_pct < 60 then ["Only N% of timeframes are profitable"] else [])
      ++ (if wf_positive_pct < 50 then ["Walk-forward: Only N% of windows are profitable"] else [])
      ++ (if monte_carlo_results.positive_sharpe_pct < 70
            then ["Monte Carlo: Only N% of parameter combinations are profitable"] else [])
  { multi_timeframe_results := multi_timeframe_results
    walk_forward_results := walk_forward_results
    monte_carlo_results := monte_carlo_results
    robustness_score := robustness_score
    recommendation := recommendation
    warnings := warnings }

theorem pctPositive_le_100 (l : List ℚ) : pctPositive l ≤ 100 := by
  unfold pctPositive
  rcases eq_or_ne l [] with rfl | h
  · simp
  · have hlen : (0:ℚ) < l.length := by
      have := List.length_pos.mpr h
      exact_mod_cast this
    have hc : ((l.countP (fun s => decide (0 < s)) : ℕ) : ℚ) ≤ (l.length : ℚ) := by
      exact_mod_cast List.countP_le_length _
    have h1 : ((l.countP (fun s => decide (0 < s)) : ℕ) : ℚ) / l.length ≤ 1 :=
      (div_le_one hlen).mpr hc
    nlinarith

/-- The robustness score unfolded to its arithmetic expression. -/
theorem robustness_score_eq (mt : List (String × BacktestResult))
    (wf : List BacktestResult) (mc : MCSummary) :
    (generate_validation_report mt wf mc).robustness_score
      = pctPositive (mt.map (fun p => p.2.sharpe)) * (1/2) * (25/100)
        + pctPositive (wf.map (fun r => r.sharpe)) * (1/2) * (35/100)
        + mc.positive_sharpe_pct * (1/2) * (25/100)
        + min (meanQ ((mt.map (fun p => p.2.sharpe)) ++ (wf.map (fun r => r.sharpe))) * 50) 50
            * (15/100) := rfl

theorem robustness_score_le_50 (mt : List (String × BacktestResult))
    (wf : List BacktestResult) (mc : MCSummary)
    (hmc : mc.positive_sharpe_pct ≤ 100) :
    (generate_validation_report mt wf mc).robustness_score ≤ 50 := by
  rw [robustness_score_eq]
  have h1 := pctPositive_le_100 (mt.map (fun p => p.2.sharpe))
  have h2 := pctPositive_le_100 (wf.map (fun r => r.sharpe))
  have h3 : min (meanQ ((mt.map (fun p => p.2.sharpe)) ++ (wf.map (fun r => r.sharpe))) * 50) 50
      ≤ 50 := min_le_right _ _
  linarith

/-- C3 counterexample: a concrete input (one multi-timeframe result and one
walk-forward result, each with Sharpe -10, Monte Carlo positive-Sharpe 0%) on
which `generate_validation_report` returns a robustness score below 0, refuting
the claim that the score always lies in [0, 100].  (`sharpe_score =
min(avg_sharpe*50, 50)` has no lower cap, and here equals -500.) -/
theorem C3_robustness_score_range_counterexample :
    (generate_validation_report
        [("1yr", { period := "1yr", start_date := 0, end_date := 365, total_return := 0,
                   sharpe := -10, max_drawdown := 0, win_rate := 0, num_trades := 0,
                   stocks_selected := [], annual_return := 0, volatility := 0 })]
        [{ period := "WF_Window_1", start_date := 0, end_date := 180, total_return := 0,
           sharpe := -10, max_drawdown := 0, win_rate := 0, num_trades := 0,
           stocks_selected := [], annual_return := 0, volatility := 0 }]
        { positive_sharpe_pct := 0 }).robustness_score < 0 := by
  rw [robustness_score_eq]
  norm_num [pctPositive, meanQ, List.countP_cons, List.countP_nil]

/-- C3 amended: for every input with nonempty multi-timeframe and walk-forward
results and a Monte Carlo positive-Sharpe percentage in [0, 100], the robustness
score is bounded above by 100 (indeed by 50); it is however not bounded below by
0, since `sharpe_score = min(avg_sharpe * 50, 50)` is uncapped below and a
sufficiently negative average Sharpe drives the weighted sum negative. -/
theorem C3_robustness_score_le_100 (mt : List (String × BacktestResult))
    (wf : List BacktestResult) (mc : MCSummary)
    (hmt : mt ≠ []) (hwf : wf ≠ [])
    (h0 : 0 ≤ mc.positive_sharpe_pct) (h100 : mc.positive_sharpe_pct ≤ 100) :
    (generate_validation_report mt wf mc).robustness_score ≤ 100 := by
  have := robustness_score_le_50 mt wf mc h100
  linarith

/-- C3 witness: the amended bound at a concrete benign input. -/
theorem C3_robustness_score_le_100_witness :
    ([("1yr", { period := "1yr", start_date := 0, end_date := 365, total_return := 0,
                sharpe := 1, max_drawdown := 0, win_rate := 0, num_trades := 0,
                stocks_selected := [], annual_return := 0, volatility := 0 })]
        ≠ ([] : List (String × BacktestResult))) ∧
    ([{ period := "w", start_date := 0, end_date := 180, total_return := 0,
        sharpe := 1, max_drawdown := 0, win_rate := 0, num_trades := 0,
        stocks_selected := [], annual_return := 0, volatility := 0 }]
        ≠ ([] : List BacktestResult)) ∧
    (0:ℚ) ≤ 50 ∧ (50:ℚ) ≤ 100 ∧
    (generate_validation_report
        [("1yr", { period := "1yr", start_date := 0, end_date := 365, total_return := 0,
                   sharpe := 1, max_drawdown := 0, win_rate := 0, num_trades := 0,
                   stocks_selected := [], annual_return := 0, volatility := 0 })]
        [{ period := "w", start_date := 0, end_date := 180, total_return := 0,
           sharpe := 1, max_drawdown := 0, win_rate := 0, num_trades := 0,
           stocks_selected := [], annual_return := 0, volatility := 0 }]
        { positive_sharpe_pct := 50 }).robustness_score ≤ 100 :=
  ⟨by simp, by simp, by norm_num, by norm_num,
    C3_robustness_score_le_100 _ _ _ (by simp) (by simp) (by norm_num) (by norm_num)⟩

/-- C4: with nonempty result lists and a Monte Carlo positive-Sharpe percentage
in [0, 100], every sub-score is capped at 50 and the weights sum to 1, so the
robustness score never exceeds 50 and the "STRONG" recommendation (threshold
70) is unreachable. -/
theorem C4_strong_tier_unreachable (mt : List (String × BacktestResult))
    (wf : List BacktestResult) (mc : MCSummary)
    (hmt : mt ≠ []) (hwf : wf ≠ [])
    (h0 : 0 ≤ mc.positive_sharpe_pct) (h100 : mc.positive_sharpe_pct ≤ 100) :
    (generate_validation_report mt wf mc).robustness_score ≤ 50 ∧
    (generate_validation_report mt wf mc).recommendation
      ≠ "STRONG - Strategy is robust and ready for live trading" := by
  have h50 := robustness_score_le_50 mt wf mc h100
  refine ⟨h50, ?_⟩
  have hrec : (generate_validation_report mt wf mc).recommendation
      = (if 70 ≤ (generate_validation_report mt wf mc).robustness_score
          then "STRONG - Strategy is robust and ready for live trading"
          else if 50 ≤ (generate_validation_report mt wf mc).robustness_score
          then "MODERATE - Strategy shows promise but needs refinement"
          else if 30 ≤ (generate_validation_report mt wf mc).robustness_score
          then "WEAK - Strategy needs significant improvement"
          else "FAIL - Strategy is not viable, reconsider approach") := rfl
  rw [hrec, if_neg (by linarith)]
  split_ifs <;> decide

/-- C4 witness: the theorem applied at a concrete input. -/
theorem C4_strong_tier_unreachable_witness :
    ([("6mo", { period := "6mo", start_date := 0, end_date := 180, total_return := 0,
                sharpe := 2, max_drawdown := 0, win_rate := 0, num_trades := 0,
                stocks_selected := [], annual_return := 0, volatility := 0 })]
        ≠ ([] : List (String × BacktestResult))) ∧
    ([{ period := "w1", start_date := 0, end_date := 180, total_return := 0,
        sharpe := 2, max_drawdown := 0, win_rate := 0, num_trades := 0,
        stocks_selected := [], annual_return := 0, volatility := 0 }]
        ≠ ([] : List BacktestResult)) ∧
    (0:ℚ) ≤ 100 ∧ (100:ℚ) ≤ 100 ∧
    ((generate_validation_report
        [("6mo", { period := "6mo", start_date := 0, end_date := 180, total_return := 0,
                   sharpe := 2, max_drawdown := 0, win_rate := 0, num_trades := 0,
                   stocks_selected := [], annual_return := 0, volatility := 0 })]
        [{ period := "w1", start_date := 0, end_date := 180, total_return := 0,
           sharpe := 2, max_drawdown := 0, win_rate := 0, num_trades := 0,
           stocks_selected := [], annual_return := 0, volatility := 0 }]
        { positive_sharpe_pct := 100 }).robustness_score ≤ 50 ∧
     (generate_validation_report
        [("6mo", { period := "6mo", start_date := 0, end_date := 180, total_return := 0,
                   sharpe := 2, max_drawdown := 0, win_rate := 0, num_trades := 0,
                   stocks_selected := [], annual_return := 0, volatility := 0 })]
        [{ period := "w1", start_date := 0, end_date := 180, total_return := 0,
           sharpe := 2, max_drawdown := 0, win_rate := 0, num_trades := 0,
           stocks_selected := [], annual_return := 0, volatility := 0 }]
        { positive_sharpe_pct := 100 }).recommendation
       ≠ "STRONG - Strategy is robust and ready for live trading") :=
  ⟨by simp, by simp, by norm_num, by norm_num,
    C4_strong_tier_unreachable _ _ _ (by simp) (by simp) (by norm_num) (by norm_num)⟩

/-! ### Performance metrics

Sharpe ratio: `validation_framework.py` lines 316-321 and
`module_6_backtest_engine.py` lines 137-143.  pandas `Series.std()` uses
`ddof = 1`: it is NaN for a series of length ≤ 1 and otherwise
`sqrt(sum((x - mean)^2) / (n - 1))`.  `std == 0` iff the (always nonnegative)
sample variance is 0, which is how the guard is embedded.  A NaN standard
deviation fails the `== 0` comparison, after which `sqrt(252) * mean / std` is
NaN — hence the `none` branches below. -/

/-- pandas sample variance (`ddof = 1`): NaN for fewer than two observations. -/
def sampleVarQ (returns : List ℚ) : Option ℚ :=
  if returns.length ≤ 1 then none
  else some (((returns.map (fun x => (x - meanQ returns) ^ 2)).sum) / ((returns.length : ℚ) - 1))

/-- `PortfolioValidator._calculate_sharpe` (validation_framework.py 316-321).
The Python default `risk_free_rate = 0.02` is passed explicitly as `1/50` at
call sites.  There is no length guard: an empty (or singleton) series has NaN
standard deviation, the `== 0` test is False, and the result is NaN. -/
noncomputable def vf_calculate_sharpe (returns : List ℚ) (risk_free_rate : ℚ) : Option ℝ :=
  match sampleVarQ returns with
  | none => none
  | some v =>
    if v = 0 then some 0
    else some (Real.sqrt 252 * ((meanQ returns : ℝ) - (risk_free_rate : ℝ) / 252)
                / Real.sqrt (v : ℝ))

/-- `BacktestEngine._calculate_sharpe` (module_6_backtest_engine.py 137-143):
identical except for the explicit `len(returns) == 0` guard. -/
noncomputable def m6_calculate_sharpe (returns : List ℚ) (risk_free_rate : ℚ) : Option ℝ :=
  if returns.length = 0 then some 0
  else
    match sampleVarQ returns with
    | none => none
    | some v =>
      if v = 0 then some 0
      else some (Real.sqrt 252 * ((meanQ returns : ℝ) - (risk_free_rate : ℝ) / 252)
                  / Real.sqrt (v : ℝ))

/-- C5: on an empty return series, module_6's `_calculate_sharpe` returns 0.0 as
the claim requires, but validation_framework's `_calculate_sharpe` (which lacks
the `len == 0` guard) returns NaN: pandas `std()`/`mean()` of an empty series
are NaN, `NaN == 0` is False, and the division propagates NaN. -/
theorem C5_sharpe_empty_series :
    vf_calculate_sharpe [] (1/50) = none ∧ m6_calculate_sharpe [] (1/50) = some 0 := by
  constructor
  · simp [vf_calculate_sharpe, sampleVarQ]
  · simp [m6_calculate_sharpe]

/-! Maximum drawdown: `validation_framework.py` lines 323-328 (input: returns;
`cumulative = (1+returns).cumprod()`) and `module_6_backtest_engine.py` lines
145-149 (input: the cumulative series itself).  `drawdown = (cum - runmax)/runmax`
is NaN (`0.0/0.0`) exactly where the running maximum is 0 — on cumprod series a
zero running maximum forces the entry itself to be 0, so no signed infinity arises —
and pandas `.min()` skips NaN entries, returning NaN only when all are NaN. -/

/-- `(1 + returns).cumprod()`. -/
def cumprodGo (acc : ℚ) : List ℚ → List ℚ
  | [] => []
  | r :: rest => (acc * (1 + r)) :: cumprodGo (acc * (1 + r)) rest

def cumprodQ (returns : List ℚ) : List ℚ := cumprodGo 1 returns

/-- `Series.cummax()`. -/
def cummaxGo (m : ℚ) : List ℚ → List ℚ
  | [] => []
  | x :: rest => max m x :: cummaxGo (max m x) rest

def cummaxQ : List ℚ → List ℚ
  | [] => []
  | x :: rest => x :: cummaxGo x rest

/-- One entry of `(cumulative - running_max) / running_max`; NaN when the
running maximum is 0 (on cumprod inputs the numerator is then 0 as well). -/
def drawdownEntry (c m : ℚ) : Option ℚ := if m = 0 then none else some ((c - m) / m)

/-- pandas `Series.min()` with its default `skipna=True`: NaN entries are
ignored; the result is NaN only if no non-NaN entry exists. -/
def seriesMin (l : List (Option ℚ)) : Option ℚ :=
  match l.reduceOption with
  | [] => none
  | x :: xs => some (xs.foldl min x)

/-- `BacktestEngine._calculate_max_drawdown` (module_6, 145-149), taking the
cumulative-return series. -/
def m6_calculate_max_drawdown (cumulative_returns : List ℚ) : Option ℚ :=
  seriesMin ((cumulative_returns.zip (cummaxQ cumulative_returns)).map
    (fun p => drawdownEntry p.1 p.2))

/-- `PortfolioValidator._calculate_max_drawdown` (validation_framework, 323-328),
taking the raw return series and building the cumulative product itself. -/
def vf_calculate_max_drawdown (returns : List ℚ) : Option ℚ :=
  seriesMin (((cumprodQ returns).zip (cummaxQ (cumprodQ returns))).map
    (fun p => drawdownEntry p.1 p.2))

/-- Win rate as computed inline by `backtest_portfolio`
(module_6_backtest_engine.py line 109): `(returns > 0).sum() / len(returns)`. -/
def win_rate (returns : List ℚ) : ℚ :=
  ((returns.countP (fun x => decide (0 < x)) : ℕ) : ℚ) / returns.length

theorem foldl_min_le_init (l : List ℚ) : ∀ x : ℚ, l.foldl min x ≤ x := by
  induction l with
  | nil => intro x; simp
  | cons y ys ih =>
    intro x
    calc (y :: ys).foldl min x = ys.foldl min (min x y) := by rw [List.foldl_cons]
    _ ≤ min x y := ih (min x y)
    _ ≤ x := min_le_left x y

theorem drawdown_head_zero_min (c : ℚ) (rest : List ℚ) (hc : c ≠ 0) :
    ∃ q, m6_calculate_max_drawdown (c :: rest) = some q ∧ q ≤ 0 := by
  unfold m6_calculate_max_drawdown
  rw [show cummaxQ (c :: rest) = c :: cummaxGo c rest from rfl]
  rw [List.zip_cons_cons, List.map_cons]
  rw [show drawdownEntry c c = some ((c - c) / c) from if_neg hc]
  rw [sub_self, zero_div]
  unfold seriesMin
  rw [List.reduceOption_cons_of_some]
  exact ⟨_, rfl, foldl_min_le_init _ 0⟩

theorem cumprodQ_cons (r : ℚ) (t : List ℚ) :
    cumprodQ (r :: t) = (1 + r) :: cumprodGo (1 + r) t := by
  show (1 * (1 + r)) :: cumprodGo (1 * (1 + r)) t = (1 + r) :: cumprodGo (1 + r) t
  rw [one_mul]

/-- C10 counterexample: the return sequence `[-1]` (produced e.g. by a price
series reaching 0) makes every drawdown entry NaN (`cumulative = [0]`,
`running_max = [0]`, `0.0/0.0 = NaN`), so the computed max drawdown is NaN and
in particular not `≤ 0` — refuting the claim for all return sequences. -/
theorem C10_max_drawdown_counterexample :
    ¬ ∃ q : ℚ, vf_calculate_max_drawdown [(-1 : ℚ)] = some q ∧ q ≤ 0 := by
  have h : vf_calculate_max_drawdown [(-1 : ℚ)] = none := by
    unfold vf_calculate_max_drawdown
    rw [cumprodQ_cons]
    norm_num [cumprodGo, cummaxQ, cummaxGo, drawdownEntry, seriesMin]
  rintro ⟨q, hq, _⟩
  rw [h] at hq
  exact Option.noConfusion hq

/-- C10 amended: for every nonempty return sequence whose first return is not
exactly -1 (so the first cumulative value, which equals the first running
maximum, is nonzero and its drawdown entry is 0 rather than NaN), both
max-drawdown implementations yield a defined value ≤ 0; and the win rate of any
nonempty return sequence lies in [0, 1].  When the sequence is empty or starts
with -1 the computed max drawdown is NaN (see the counterexample). -/
theorem C10_max_drawdown_nonpos_win_rate (r : ℚ) (t : List ℚ) (hr : 1 + r ≠ 0) :
    (∃ q, vf_calculate_max_drawdown (r :: t) = some q ∧ q ≤ 0) ∧
    (∃ q, m6_calculate_max_drawdown (cumprodQ (r :: t)) = some q ∧ q ≤ 0) ∧
    0 ≤ win_rate (r :: t) ∧ win_rate (r :: t) ≤ 1 := by
  have hvf : vf_calculate_max_drawdown (r :: t)
      = m6_calculate_max_drawdown (cumprodQ (r :: t)) := rfl
  have hmain : ∃ q, m6_calculate_max_drawdown (cumprodQ (r :: t)) = some q ∧ q ≤ 0 := by
    rw [cumprodQ_cons]
    exact drawdown_head_zero_min (1 + r) _ hr
  refine ⟨hvf ▸ hmain, hmain, ?_, ?_⟩
  · unfold win_rate
    positivity
  · unfold win_rate
    have hlen : (0:ℚ) < ((r :: t).length : ℚ) := by
      have : 0 < (r :: t).length := List.length_pos.mpr (List.cons_ne_nil r t)
      exact_mod_cast this
    rw [div_le_one hlen]
    exact_mod_cast List.countP_le_length _

/-- C10 witness: the amended guarantee at the concrete sequence `[1]`. -/
theorem C10_max_drawdown_nonpos_win_rate_witness :
    (1 + (1:ℚ) ≠ 0) ∧
    ((∃ q, vf_calculate_max_drawdown [(1:ℚ)] = some q ∧ q ≤ 0) ∧
     (∃ q, m6_calculate_max_drawdown (cumprodQ [(1:ℚ)]) = some q ∧ q ≤ 0) ∧
     0 ≤ win_rate [(1:ℚ)] ∧ win_rate [(1:ℚ)] ≤ 1) :=
  ⟨by norm_num, C10_max_drawdown_nonpos_win_rate 1 [] (by norm_num)⟩

/-! ### Backtest engine, `module_6_backtest_engine.py` lines 26-135

`backtest_portfolio(weights, stock_data, start_date, end_date)`:
* For each ticker of `weights` (in dict order) with an entry in `stock_data`
  (presence of a `'Close'` column is folded into presence of the series), its
  close series becomes a column of `prices`.  Assigning a Series to an empty
  DataFrame sets the frame's index to that series' index; each later assignment
  is reindexed to it, so the row index is the FIRST included ticker's dates
  (dates another ticker lacks become NaN, its extra dates are dropped).
* Rows are filtered to `start_date ≤ d ≤ end_date`; if none remain, a failure
  dict is returned.
* `dropna(axis=1, thresh=0.7*len)` keeps a column iff it has at least
  `0.7 * (number of rows)` non-NaN values; `ffill()` forward-fills and
  `dropna()` drops the rows still containing NaN (leading gaps).
* If no column survives, or the surviving tickers' total original weight is 0,
  a failure dict is returned; otherwise weights are renormalized, per-row
  returns are `pct_change().dropna()` (the first row is dropped; the model
  assumes no cleaned price equals 0, where the float code would produce
  inf/NaN), the portfolio return is the weighted row sum, and
  `portfolio_value.iloc[-1]` on an empty series raises (the `error` outcome).
The success dict's `annual_return`, `volatility` and `sharpe_ratio` entries
are real-valued functions of the rational fields kept in `BPResult` and are
modelled as the derived functions `annual_return_of` (below) and
`m6_calculate_sharpe`; `portfolio_value`/`cumulative_returns` are recomputable
from `portfolio_returns` and are not duplicated in the record. -/

abbrev Ticker := String

/-- A pandas close-price series: (date, close) with `none` a NaN cell. -/
abbrev CloseSeries := List (ℤ × Option ℚ)

/-- Python dict lookup (`d[k]` / `k in d`), written with decidable equality so
concrete instances reduce under `simp`. -/
def pyLookup {β : Type} (a : Ticker) : List (Ticker × β) → Option β
  | [] => none
  | (k, b) :: es => if a = k then some b else pyLookup a es

/-- pandas index lookup of a date inside a series. -/
def zLookup {β : Type} (a : ℤ) : List (ℤ × β) → Option β
  | [] => none
  | (k, b) :: es => if a = k then some b else zLookup a es

/-- The tickers whose series become columns of `prices` (lines 48-50), in
`weights` iteration order. -/
def includedTickers (weights : List (Ticker × ℚ)) (stock_data : List (Ticker × CloseSeries)) :
    List Ticker :=
  (weights.filter (fun p => (pyLookup p.1 stock_data).isSome)).map Prod.fst

/-- The row index of `prices` after the date filter (lines 52-53): the first
included ticker's dates restricted to the window. -/
def rowIndex (stock_data : List (Ticker × CloseSeries)) (included : List Ticker)
    (start_date end_date : ℤ) : List ℤ :=
  (match included with
   | [] => []
   | t :: _ => ((pyLookup t stock_data).getD []).map Prod.fst).filter
    (fun d => decide (start_date ≤ d) && decide (d ≤ end_date))

/-- Column of `prices` for ticker `t`: its value (possibly NaN) at each row date. -/
def colVals (stock_data : List (Ticker × CloseSeries)) (t : Ticker) (rows : List ℤ) :
    List (Option ℚ) :=
  rows.map (fun d => (zLookup d ((pyLookup t stock_data).getD [])).join)

/-- `prices.dropna(axis=1, thresh=len(prices)*0.7)` (line 62): the tickers whose
column has at least `0.7 * (number of rows)` non-NaN entries. -/
def survivingTickers (weights : List (Ticker × ℚ)) (stock_data : List (Ticker × CloseSeries))
    (start_date end_date : ℤ) : List Ticker :=
  let included := includedTickers weights stock_data
  let rows := rowIndex stock_data included start_date end_date
  included.filter (fun t =>
    decide ((7:ℚ)/10 * (rows.length : ℚ)
      ≤ (((colVals stock_data t rows).countP (fun o => o.isSome) : ℕ) : ℚ)))

/-- `sum(weights[t] for t in available_tickers if t in weights)` (line 75);
every surviving ticker is a `weights` key by construction. -/
def totalSurvivingWeight (weights : List (Ticker × ℚ)) (stock_data : List (Ticker × CloseSeries))
    (start_date end_date : ℤ) : ℚ :=
  ((survivingTickers weights stock_data start_date end_date).map
    (fun t => (pyLookup t weights).getD 0)).sum

/-- `normalized_weights = {t: weights.get(t, 0) / total_weight ...}` (line 84). -/
def normalizedWeights (weights : List (Ticker × ℚ)) (stock_data : List (Ticker × CloseSeries))
    (start_date end_date : ℤ) : List (Ticker × ℚ) :=
  (survivingTickers weights stock_data start_date end_date).map
    (fun t => (t, (pyLookup t weights).getD 0
      / totalSurvivingWeight weights stock_data start_date end_date))

/-- `Series.ffill()`: carry the last non-NaN value forward. -/
def ffillGo : Option ℚ → List (Option ℚ) → List (Option ℚ)
  | _, [] => []
  | _, some v :: rest => some v :: ffillGo (some v) rest
  | last, none :: rest => last :: ffillGo last rest

def ffillCol (col : List (Option ℚ)) : List (Option ℚ) := ffillGo none col

/-- The price matrix after `ffill().dropna()` (line 65), as a list of rows over
the surviving columns; a row is dropped iff some column is still NaN there. -/
def cleanedPriceRows (weights : List (Ticker × ℚ)) (stock_data : List (Ticker × CloseSeries))
    (start_date end_date : ℤ) : List (List ℚ) :=
  let rows := rowIndex stock_data (includedTickers weights stock_data) start_date end_date
  let filled := (survivingTickers weights stock_data start_date end_date).map
    (fun t => ffillCol (colVals stock_data t rows))
  (List.range rows.length).filterMap (fun i =>
    let row := filled.map (fun c => c.getD i none)
    if row.all (fun o => o.isSome) then some row.reduceOption else none)

/-- `returns = prices.pct_change().dropna()` (line 87): row-wise relative change
between consecutive cleaned rows (the NaN first row is dropped). -/
def pctChangeRows (rows : List (List ℚ)) : List (List ℚ) :=
  (rows.zip rows.tail).map (fun p => (p.1.zip p.2).map (fun q => (q.2 - q.1) / q.1))

/-- `portfolio_returns = returns.dot(weights_array)` (lines 90-91), the weights
taken in surviving-column order. -/
def portfolioReturns (weights : List (Ticker × ℚ)) (stock_data : List (Ticker × CloseSeries))
    (start_date end_date : ℤ) : List ℚ :=
  (pctChangeRows (cleanedPriceRows weights stock_data start_date end_date)).map
    (fun row =>
      ((((normalizedWeights weights stock_data start_date end_date).map Prod.snd).zip row).map
        (fun q => q.1 * q.2)).sum)

/-- The rational fields of the success dict returned by `backtest_portfolio`
(lines 111-128). -/
structure BPResult where
  start_date : ℤ
  end_date : ℤ
  initial_capital : ℚ
  final_value : ℚ
  total_return : ℚ
  max_drawdown : Option ℚ
  win_rate : ℚ
  num_days : ℕ
  portfolio_returns : List ℚ
  weights_used : List (Ticker × ℚ)
deriving DecidableEq

/-- Outcome of `backtest_portfolio`: a `success: False` dict with its message,
an uncaught exception (IndexError from `iloc[-1]` on an empty series), or the
`success: True` dict. -/
inductive BPOutcome where
  | failure (message : String)
  | error (message : String)
  | ok (result : BPResult)
deriving DecidableEq

def backtest_portfolio (weights : List (Ticker × ℚ)) (stock_data : List (Ticker × CloseSeries))
    (start_date end_date : ℤ) (initial_capital : ℚ) : BPOutcome :=
  if (rowIndex stock_data (includedTickers weights stock_data) start_date end_date).length = 0 then
    .failure "No data in specified date range"
  else if survivingTickers weights stock_data start_date end_date = [] then
    .failure "Insufficient data after cleaning"
  else if totalSurvivingWeight weights stock_data start_date end_date = 0 then
    .failure "No valid weights"
  else
    match (cumprodQ (portfolioReturns weights stock_data start_date end_date)).getLast? with
    | none => .error "single positional indexer is out-of-bounds"
    | some last =>
      .ok { start_date := start_date
            end_date := end_date
            initial_capital := initial_capital
            final_value := last * initial_capital
            total_return := last * initial_capital / initial_capital - 1
            max_drawdown := m6_calculate_max_drawdown
              (cumprodQ (portfolioReturns weights stock_data start_date end_date))
            win_rate := win_rate (portfolioReturns weights stock_data start_date end_date)
            num_days := (portfolioReturns weights stock_data start_date end_date).length
            portfolio_returns := portfolioReturns weights stock_data start_date end_date
            weights_used := normalizedWeights weights stock_data start_date end_date }

/-- `total_return = prod(1 + r) - 1` as computed in
`PortfolioValidator._run_backtest` line 281. -/
def totalReturnQ (returns : List ℚ) : ℚ := (returns.map (fun r => 1 + r)).prod - 1

/-- The annualization of `PortfolioValidator._run_backtest` (lines 286-287):
`days = (end_date - start_date).days`, `annual_return = (1+total)^(365/days)-1`.
(For `days = 0` Python raises ZeroDivisionError; real division by zero gives
exponent 0 here, a case no claim exercises.) -/
noncomputable def vf_annual_return (returns : List ℚ) (start_date end_date : ℤ) : ℝ :=
  ((1 : ℝ) + (totalReturnQ returns : ℝ)) ^ ((365 : ℝ) / ((end_date - start_date : ℤ) : ℝ)) - 1

/-- `BacktestEngine._annualize_return` (module_6, lines 130-135):
`years = num_days / 252`; 0 when `years ≤ 0` (i.e. `num_days = 0`), else
`(1+total)^(1/years) - 1` with `1/years = 252/num_days`. -/
noncomputable def m6_annualize_return (total_return : ℚ) (num_days : ℕ) : ℝ :=
  if num_days = 0 then 0
  else ((1 : ℝ) + (total_return : ℝ)) ^ ((252 : ℝ) / (num_days : ℝ)) - 1

/-- The `annual_return` entry of the success dict (line 101):
`self._annualize_return(total_return, len(portfolio_returns))`. -/
noncomputable def annual_return_of (r : BPResult) : ℝ :=
  m6_annualize_return r.total_return r.num_days

/-- The annualization formula the claim asserts for every backtest, exponent
365 over the literal calendar span of the window — the formula
validation_framework implements (lines 286-287). -/
noncomputable def calendar_span_annual_return (total_return : ℚ) (days : ℤ) : ℝ :=
  ((1 : ℝ) + (total_return : ℝ)) ^ ((365 : ℝ) / (days : ℝ)) - 1

/-- Concrete backtest input: two weighted tickers of which only "A" has data. -/
def c8Weights : List (Ticker × ℚ) := [("A", 3/5), ("B", 2/5)]

def c8Data : List (Ticker × CloseSeries) := [("A", [(0, some 1), (1, some 2), (2, some 4)])]

def c8Result : BPResult :=
  { start_date := 0, end_date := 2, initial_capital := 100000, final_value := 400000,
    total_return := 3, max_drawdown := some 0, win_rate := 1, num_days := 2,
    portfolio_returns := [1, 1], weights_used := [("A", 1)] }

/-- Concrete backtest input for the annualization counterexample: one ticker
with three price rows (two return observations) inside a 730-day window. -/
def c6Weights : List (Ticker × ℚ) := [("A", 1)]

def c6Data : List (Ticker × CloseSeries) := [("A", [(0, some 1), (1, some 1), (2, some 2)])]

def c6Result : BPResult :=
  { start_date := 0, end_date := 730, initial_capital := 100000, final_value := 200000,
    total_return := 1, max_drawdown := some 0, win_rate := 1/2, num_days := 2,
    portfolio_returns := [0, 1], weights_used := [("A", 1)] }

theorem c8_included_eval : includedTickers c8Weights c8Data = ["A"] := by
  simp [includedTickers, pyLookup, c8Weights, c8Data, List.filter]

theorem c8_rows_eval : rowIndex c8Data ["A"] 0 2 = [0, 1, 2] := by
  simp [rowIndex, pyLookup, c8Data, List.filter]

theorem c8_surviving_eval : survivingTickers c8Weights c8Data 0 2 = ["A"] := by
  simp only [survivingTickers]
  rw [c8_included_eval, c8_rows_eval]
  norm_num [colVals, zLookup, pyLookup, c8Data, List.filter, List.countP_cons]

theorem c8_weight_eval : totalSurvivingWeight c8Weights c8Data 0 2 = 3/5 := by
  unfold totalSurvivingWeight
  rw [c8_surviving_eval]
  norm_num [pyLookup, c8Weights]

theorem c8_normalized_eval : normalizedWeights c8Weights c8Data 0 2 = [("A", 1)] := by
  unfold normalizedWeights
  rw [c8_surviving_eval, c8_weight_eval]
  norm_num [pyLookup, c8Weights]

theorem c8_cleaned_eval : cleanedPriceRows c8Weights c8Data 0 2 = [[1], [2], [4]] := by
  simp only [cleanedPriceRows]
  rw [c8_included_eval, c8_rows_eval, c8_surviving_eval]
  norm_num [colVals, zLookup, pyLookup, c8Data, ffillCol, ffillGo, List.range,
    List.range.loop, List.getD, List.reduceOption_cons_of_some, List.all,
    List.getElem?_cons_zero, List.getElem?_cons_succ, List.filterMap_cons]

theorem c8_returns_eval : portfolioReturns c8Weights c8Data 0 2 = [1, 1] := by
  unfold portfolioReturns
  rw [c8_cleaned_eval, c8_normalized_eval]
  norm_num [pctChangeRows]

theorem c8_backtest_eval : backtest_portfolio c8Weights c8Data 0 2 100000 = .ok c8Result := by
  unfold backtest_portfolio
  rw [c8_included_eval, c8_rows_eval, c8_surviving_eval, c8_weight_eval,
    c8_returns_eval, c8_normalized_eval]
  norm_num [cumprodQ, cumprodGo, m6_calculate_max_drawdown, cummaxQ, cummaxGo,
    drawdownEntry, seriesMin, win_rate, List.reduceOption_cons_of_some, List.countP_cons,
    c8Result, BPResult.mk.injEq]

theorem c6_included_eval : includedTickers c6Weights c6Data = ["A"] := by
  simp [includedTickers, pyLookup, c6Weights, c6Data, List.filter]

theorem c6_rows_eval : rowIndex c6Data ["A"] 0 730 = [0, 1, 2] := by
  simp [rowIndex, pyLookup, c6Data, List.filter]

theorem c6_surviving_eval : survivingTickers c6Weights c6Data 0 730 = ["A"] := by
  simp only [survivingTickers]
  rw [c6_included_eval, c6_rows_eval]
  norm_num [colVals, zLookup, pyLookup, c6Data, List.filter, List.countP_cons]

theorem c6_weight_eval : totalSurvivingWeight c6Weights c6Data 0 730 = 1 := by
  unfold totalSurvivingWeight
  rw [c6_surviving_eval]
  norm_num [pyLookup, c6Weights]

theorem c6_normalized_eval : normalizedWeights c6Weights c6Data 0 730 = [("A", 1)] := by
  unfold normalizedWeights
  rw [c6_surviving_eval, c6_weight_eval]
  norm_num [pyLookup, c6Weights]

theorem c6_cleaned_eval : cleanedPriceRows c6Weights c6Data 0 730 = [[1], [1], [2]] := by
  simp only [cleanedPriceRows]
  rw [c6_included_eval, c6_rows_eval, c6_surviving_eval]
  norm_num [colVals, zLookup, pyLookup, c6Data, ffillCol, ffillGo, List.range,
    List.range.loop, List.getD, List.reduceOption_cons_of_some, List.all,
    List.getElem?_cons_zero, List.getElem?_cons_succ, List.filterMap_cons]

theorem c6_returns_eval : portfolioReturns c6Weights c6Data 0 730 = [0, 1] := by
  unfold portfolioReturns
  rw [c6_cleaned_eval, c6_normalized_eval]
  norm_num [pctChangeRows]

theorem c6_backtest_eval : backtest_portfolio c6Weights c6Data 0 730 100000 = .ok c6Result := by
  unfold backtest_portfolio
  rw [c6_included_eval, c6_rows_eval, c6_surviving_eval, c6_weight_eval,
    c6_returns_eval, c6_normalized_eval]
  norm_num [cumprodQ, cumprodGo, m6_calculate_max_drawdown, cummaxQ, cummaxGo,
    drawdownEntry, seriesMin, win_rate, List.reduceOption_cons_of_some, List.countP_cons,
    c6Result, BPResult.mk.injEq]

/-- C7: whenever no instrument survives the data cleaning or the surviving
instruments' total original weight is zero, `backtest_portfolio` returns a
`success: False` failure dict (never the exception outcome, never a success). -/
theorem C7_backtest_failure_not_exception (weights : List (Ticker × ℚ))
    (stock_data : List (Ticker × CloseSeries)) (start_date end_date : ℤ)
    (initial_capital : ℚ)
    (h : survivingTickers weights stock_data start_date end_date = []
       ∨ totalSurvivingWeight weights stock_data start_date end_date = 0) :
    ∃ msg, backtest_portfolio weights stock_data start_date end_date initial_capital
      = .failure msg := by
  unfold backtest_portfolio
  by_cases h1 : (rowIndex stock_data (includedTickers weights stock_data)
      start_date end_date).length = 0
  · exact ⟨_, if_pos h1⟩
  · rw [if_neg h1]
    rcases h with h2 | h3
    · exact ⟨_, if_pos h2⟩
    · by_cases h2 : survivingTickers weights stock_data start_date end_date = []
      · exact ⟨_, if_pos h2⟩
      · rw [if_neg h2]
        exact ⟨_, if_pos h3⟩

/-- C7 witness: a portfolio whose only surviving ticker has weight 0, so the
total surviving weight is 0 and the "No valid weights" failure dict is
returned. -/
theorem C7_backtest_failure_not_exception_witness :
    (survivingTickers [("A", (0:ℚ))] [("A", [((0:ℤ), some (1:ℚ)), (1, some 1)])] 0 1 = []
      ∨ totalSurvivingWeight [("A", (0:ℚ))] [("A", [((0:ℤ), some (1:ℚ)), (1, some 1)])] 0 1 = 0) ∧
    (∃ msg, backtest_portfolio [("A", (0:ℚ))] [("A", [((0:ℤ), some (1:ℚ)), (1, some 1)])] 0 1 100000
      = .failure msg) :=
  have hW : totalSurvivingWeight [("A", (0:ℚ))] [("A", [((0:ℤ), some (1:ℚ)), (1, some 1)])] 0 1
      = 0 := by
    norm_num [totalSurvivingWeight, survivingTickers, includedTickers, rowIndex, colVals,
      pyLookup, zLookup, List.filter, List.countP_cons]
  ⟨Or.inr hW,
    C7_backtest_failure_not_exception [("A", (0:ℚ))] [("A", [((0:ℤ), some (1:ℚ)), (1, some 1)])]
      0 1 100000 (Or.inr hW)⟩

theorem list_sum_map_div (l : List ℚ) (c : ℚ) :
    (l.map (fun x => x / c)).sum = l.sum / c := by
  induction l with
  | nil => simp
  | cons x xs ih => simp [ih, add_div]

theorem normalizedWeights_sum_one (weights : List (Ticker × ℚ))
    (stock_data : List (Ticker × CloseSeries)) (start_date end_date : ℤ)
    (hW : totalSurvivingWeight weights stock_data start_date end_date ≠ 0) :
    ((normalizedWeights weights stock_data start_date end_date).map Prod.snd).sum = 1 := by
  unfold normalizedWeights
  rw [List.map_map]
  rw [show (Prod.snd ∘ fun t => (t, (pyLookup t weights).getD 0
        / totalSurvivingWeight weights stock_data start_date end_date))
      = (fun x => x / totalSurvivingWeight weights stock_data start_date end_date)
          ∘ (fun t => (pyLookup t weights).getD 0) from rfl]
  rw [← List.map_map, list_sum_map_div]
  rw [show ((survivingTickers weights stock_data start_date end_date).map
      (fun t => (pyLookup t weights).getD 0)).sum
    = totalSurvivingWeight weights stock_data start_date end_date from rfl]
  exact div_self hW

/-- C8: every successful backtest uses renormalized weights summing exactly
to 1 over the surviving instrument set. -/
theorem C8_weights_renormalized (weights : List (Ticker × ℚ))
    (stock_data : List (Ticker × CloseSeries)) (start_date end_date : ℤ)
    (initial_capital : ℚ) (result : BPResult)
    (h : backtest_portfolio weights stock_data start_date end_date initial_capital
      = .ok result) :
    ((result.weights_used).map Prod.snd).sum = 1 := by
  unfold backtest_portfolio at h
  by_cases h1 : (rowIndex stock_data (includedTickers weights stock_data)
      start_date end_date).length = 0
  · rw [if_pos h1] at h
    exact absurd h (by simp)
  rw [if_neg h1] at h
  by_cases h2 : survivingTickers weights stock_data start_date end_date = []
  · rw [if_pos h2] at h
    exact absurd h (by simp)
  rw [if_neg h2] at h
  by_cases h3 : totalSurvivingWeight weights stock_data start_date end_date = 0
  · rw [if_pos h3] at h
    exact absurd h (by simp)
  rw [if_neg h3] at h
  rcases hl : (cumprodQ (portfolioReturns weights stock_data start_date end_date)).getLast? with
    _ | last
  · rw [hl] at h
    exact absurd h (by simp)
  · rw [hl] at h
    have hres := BPOutcome.ok.inj h
    rw [← hres]
    exact normalizedWeights_sum_one weights stock_data start_date end_date h3

/-- C8 witness: the successful concrete backtest `c8_backtest_eval` (where the
missing ticker "B" was dropped and "A"'s weight 0.6 was renormalized to 1). -/
theorem C8_weights_renormalized_witness :
    backtest_portfolio c8Weights c8Data 0 2 100000 = .ok c8Result ∧
    ((c8Result.weights_used).map Prod.snd).sum = 1 :=
  ⟨c8_backtest_eval,
    C8_weights_renormalized c8Weights c8Data 0 2 100000 c8Result c8_backtest_eval⟩

/-- C6 counterexample: a successful `backtest_portfolio` run over the 730-day
window [0, 730] with total return 1 and two return observations.  Its
`annual_return` entry is `(1+1)^(252/2) - 1 = 2^126 - 1`, while the claimed
calendar-span formula gives `(1+1)^(365/730) - 1 = 2^(1/2) - 1`.  module_6
annualizes by the count of return observations (252/num_obs), not the calendar
span, refuting the claim for `backtest_portfolio`. -/
theorem C6_annualization_counterexample :
    backtest_portfolio c6Weights c6Data 0 730 100000 = .ok c6Result ∧
    annual_return_of c6Result ≠ calendar_span_annual_return c6Result.total_return (730 - 0) := by
  refine ⟨c6_backtest_eval, ?_⟩
  have htr : c6Result.total_return = 1 := rfl
  rw [htr]
  have h1 : annual_return_of c6Result = (2:ℝ) ^ (126:ℝ) - 1 := by
    show m6_annualize_return (1:ℚ) 2 = (2:ℝ) ^ (126:ℝ) - 1
    unfold m6_annualize_return
    rw [if_neg (by norm_num)]
    norm_num
  have h2 : calendar_span_annual_return (1:ℚ) (730 - 0) = (2:ℝ) ^ ((1:ℝ)/2) - 1 := by
    unfold calendar_span_annual_return
    norm_num
  have hlt : (2:ℝ) ^ ((1:ℝ)/2) < (2:ℝ) ^ (126:ℝ) := by
    rw [Real.rpow_lt_rpow_left_iff (by norm_num : (1:ℝ) < 2)]
    norm_num
  rw [h1, h2]
  intro heq
  have : (2:ℝ) ^ ((1:ℝ)/2) = (2:ℝ) ^ (126:ℝ) := by linarith
  linarith [hlt, this]

/-- C6 amended: `PortfolioValidator._run_backtest` does annualize by the
literal calendar span — its `annual_return` is
`(1+total)^(365/(end-start)) - 1`, a function of the return series only through
`total_return` and never through the number of return observations (so two
series with equal total return but different observation counts annualize
identically there).  `BacktestEngine.backtest_portfolio`, however, annualizes
by observation count, `(1+total)^(252/num_obs) - 1` (see the counterexample),
so the claim does not hold for every backtest. -/
theorem C6_vf_annualization_uses_calendar_span (returns1 returns2 : List ℚ) (s e : ℤ)
    (h : totalReturnQ returns1 = totalReturnQ returns2) :
    vf_annual_return returns1 s e = vf_annual_return returns2 s e := by
  unfold vf_annual_return
  rw [h]

/-- C6 witness: the one-observation series `[3]` and the two-observation series
`[1, 1]` have the same total return 3 and identical validation-framework
annualized return over the same window. -/
theorem C6_vf_annualization_uses_calendar_span_witness :
    totalReturnQ [(3:ℚ)] = totalReturnQ [(1:ℚ), 1] ∧
    vf_annual_return [(3:ℚ)] 0 730 = vf_annual_return [(1:ℚ), 1] 0 730 :=
  ⟨by norm_num [totalReturnQ],
    C6_vf_annualization_uses_calendar_span [(3:ℚ)] [(1:ℚ), 1] 0 730 (by norm_num [totalReturnQ])⟩

/-! ### Monte Carlo parameter sampling, `validation_framework.py` lines 187-194

For each parameter range `(min_val, max_val)`:
`isinstance(min_val, int) and isinstance(max_val, int)` selects
`np.random.randint(min_val, max_val + 1)`, otherwise
`np.random.uniform(min_val, max_val)`.  The two numpy samplers are modelled by
their documented semantics, made deterministic in an explicit random draw:
`randint(low, high)` is uniform over the integers `low ≤ z < high`, realized
as `low + (u % (high - low))` from a natural draw `u`; `uniform(low, high)` is
`low + v * (high - low)` from a unit draw `v ∈ [0, 1)`. -/

inductive PyNum where
  | int (z : ℤ)
  | float (q : ℚ)
deriving DecidableEq

def PyNum.toQ : PyNum → ℚ
  | .int z => (z : ℚ)
  | .float q => q

def np_random_randint (low high : ℤ) (u : ℕ) : ℤ :=
  low + ((u % (high - low).toNat : ℕ) : ℤ)

def np_random_uniform (low high : ℚ) (v : ℚ) : ℚ := low + v * (high - low)

/-- The parameter-sampling branch of `monte_carlo_parameter_sensitivity`
(lines 190-194), for one parameter range. -/
def sample_parameter (min_val max_val : PyNum) (u : ℕ) (v : ℚ) : PyNum :=
  match min_val, max_val with
  | .int a, .int b => .int (np_random_randint a (b + 1) u)
  | _, _ => .float (np_random_uniform min_val.toQ max_val.toQ v)

/-- C9: for an integer range `a ≤ b` (both bounds Python ints), every draw of
`sample_parameter` is an integer in `[a, b]` and both boundaries are attained
by some draw; for ANY other range — both bounds float, or mixed int/float
bounds such as `(0, 0.5)`, all handled by the Python `else` branch — the draw
is the continuous uniform `lo + v*(hi-lo)` over the bounds' numeric values,
which stays within `[min, max]` for every unit draw. -/
theorem C9_monte_carlo_parameter_sampling (a b : ℤ) (hab : a ≤ b) :
    (∀ u v, ∃ z : ℤ, sample_parameter (.int a) (.int b) u v = .int z ∧ a ≤ z ∧ z ≤ b) ∧
    (∃ u, ∀ v : ℚ, sample_parameter (.int a) (.int b) u v = .int a) ∧
    (∃ u, ∀ v : ℚ, sample_parameter (.int a) (.int b) u v = .int b) ∧
    (∀ (min_val max_val : PyNum),
      (∀ x y : ℤ, ¬(min_val = .int x ∧ max_val = .int y)) →
      min_val.toQ ≤ max_val.toQ →
      ∀ (u : ℕ) (v : ℚ), 0 ≤ v → v < 1 →
        sample_parameter min_val max_val u v
          = .float (np_random_uniform min_val.toQ max_val.toQ v) ∧
        min_val.toQ ≤ np_random_uniform min_val.toQ max_val.toQ v ∧
        np_random_uniform min_val.toQ max_val.toQ v ≤ max_val.toQ) := by
  have hn : 0 < (b + 1 - a).toNat := by omega
  refine ⟨?_, ?_, ?_, ?_⟩
  · intro u v
    refine ⟨np_random_randint a (b + 1) u, rfl, ?_, ?_⟩
    · have hmod : u % (b + 1 - a).toNat < (b + 1 - a).toNat := Nat.mod_lt _ hn
      unfold np_random_randint
      omega
    · have hmod : u % (b + 1 - a).toNat < (b + 1 - a).toNat := Nat.mod_lt _ hn
      unfold np_random_randint
      omega
  · refine ⟨0, fun v => ?_⟩
    show PyNum.int (np_random_randint a (b + 1) 0) = PyNum.int a
    unfold np_random_randint
    simp
  · refine ⟨(b - a).toNat, fun v => ?_⟩
    have hlt : (b - a).toNat < (b + 1 - a).toNat := by omega
    show PyNum.int (np_random_randint a (b + 1) (b - a).toNat) = PyNum.int b
    unfold np_random_randint
    rw [Nat.mod_eq_of_lt hlt]
    congr 1
    omega
  · intro min_val max_val hmixed hlh u v h0 h1
    refine ⟨?_, ?_, ?_⟩
    · cases min_val with
      | int x =>
        cases max_val with
        | int y => exact absurd ⟨rfl, rfl⟩ (hmixed x y)
        | float q => rfl
      | float p =>
        cases max_val with
        | int y => rfl
        | float q => rfl
    · unfold np_random_uniform
      nlinarith [mul_nonneg h0 (sub_nonneg.mpr hlh)]
    · unfold np_random_uniform
      nlinarith [mul_nonneg (le_of_lt (sub_pos.mpr h1)) (sub_nonneg.mpr hlh)]

/-- C9 witness: the sampling contract applied at the integer range [1, 3], and
its continuous conjunct further instantiated at the mixed int/float range
`(0, 0.5)` with unit draw 1/2 (the draw is `.float (1/4)`, inside [0, 1/2]). -/
theorem C9_monte_carlo_parameter_sampling_witness :
    ((1:ℤ) ≤ 3) ∧
    ((∀ u v, ∃ z : ℤ, sample_parameter (.int 1) (.int 3) u v = .int z ∧ 1 ≤ z ∧ z ≤ 3) ∧
     (∃ u, ∀ v : ℚ, sample_parameter (.int 1) (.int 3) u v = .int 1) ∧
     (∃ u, ∀ v : ℚ, sample_parameter (.int 1) (.int 3) u v = .int 3) ∧
     (∀ (min_val max_val : PyNum),
       (∀ x y : ℤ, ¬(min_val = .int x ∧ max_val = .int y)) →
       min_val.toQ ≤ max_val.toQ →
       ∀ (u : ℕ) (v : ℚ), 0 ≤ v → v < 1 →
         sample_parameter min_val max_val u v
           = .float (np_random_uniform min_val.toQ max_val.toQ v) ∧
         min_val.toQ ≤ np_random_uniform min_val.toQ max_val.toQ v ∧
         np_random_uniform min_val.toQ max_val.toQ v ≤ max_val.toQ)) ∧
    (sample_parameter (.int 0) (.float (1/2)) 0 (1/2)
        = .float (np_random_uniform (PyNum.int 0).toQ (PyNum.float (1/2)).toQ (1/2)) ∧
     (PyNum.int 0).toQ ≤ np_random_uniform (PyNum.int 0).toQ (PyNum.float (1/2)).toQ (1/2) ∧
     np_random_uniform (PyNum.int 0).toQ (PyNum.float (1/2)).toQ (1/2)
        ≤ (PyNum.float (1/2)).toQ) :=
  have hmain := C9_monte_carlo_parameter_sampling 1 3 (by norm_num)
  ⟨by norm_num, hmain,
    hmain.2.2.2 (.int 0) (.float (1/2)) (fun x y h => PyNum.noConfusion h.2)
      (by norm_num [PyNum.toQ]) 0 (1/2) (by norm_num) (by norm_num)⟩
